import Mathlib

/-!
Verification of the openwork workspace bridge (src/main/ipc/models.ts).

The TypeScript IPC handlers are embedded as pure Lean functions.  State that
the real code keeps in electron-store, the sqlite thread table and the watcher
service is made explicit: a `State` value carries the settings store and the
thread table, the disk is a lookup table from normalized absolute paths to
entries (the model has no symlinks), and calls into the watcher service are
recorded as an ordered `Action` trace instead of being interpreted, since the
watcher implementation lives outside the analysed file.
-/

namespace Openwork

/-! ### String primitives

JavaScript string operations are modelled structurally over `List Char`, so
that every definition evaluates inside the kernel. -/

/-- Split a character list at every occurrence of `sep` (the separator is
dropped; empty pieces are kept, as in JS `split`). -/
def splitCharAux (sep : Char) : List Char → List (List Char)
  | [] => [[]]
  | c :: cs =>
    if c == sep then [] :: splitCharAux sep cs
    else
      match splitCharAux sep cs with
      | [] => [[c]]
      | w :: ws => (c :: w) :: ws

/-- `s.split(sep)` for a one-character separator. -/
def splitOnChar (sep : Char) (s : String) : List String :=
  (splitCharAux sep s.toList).map String.mk

/-- `s.startsWith(c)` for a one-character test. -/
def startsWithChar (s : String) (c : Char) : Bool :=
  match s.toList with
  | x :: _ => x == c
  | [] => false

/-- `s.slice(1)`. -/
def dropFirst (s : String) : String :=
  match s.toList with
  | _ :: rest => String.mk rest
  | [] => s

/-- `s.startsWith(pre)` — is `pre` a leading piece of `s`? -/
def strStartsWithStr (s pre : String) : Bool :=
  pre.toList.isPrefixOf s.toList

/-- Join path segments with `/` (the inverse of splitting). -/
def joinSlash : List String → String
  | [] => ""
  | [s] => s
  | s :: rest => s ++ "/" ++ joinSlash rest

/-! ### Lexical path normalization (Node `path.resolve` on absolute paths)

`workspace:readFile` / `workspace:readBinaryFile` (models.ts lines 488-498,
542-552) join the virtual path onto the workspace root with `path.join` and
normalize with `path.resolve`.  For absolute inputs both normalize lexically:
empty and `.` segments are dropped and `..` pops the previous segment (at the
root it is discarded).  Workspace roots are absolute real paths (spec section 3),
so the current-directory behaviour of `path.resolve` never fires. -/

def normalizeAbs (p : String) : String :=
  let segs := (splitOnChar '/' p).filter (fun s => !(s == "") && !(s == "."))
  let stack := segs.foldl (fun st seg => if seg == ".." then st.dropLast else st.concat seg) ([] : List String)
  "/" ++ joinSlash stack

/-- The path components of an absolute path, ignoring empty segments. -/
def pathComponents (p : String) : List String :=
  (splitOnChar '/' p).filter (fun s => !(s == ""))

/-- Modelled from the spec: the containment test the spec demands — the
workspace root must be a component-wise (not substring-wise) path-prefix of the
normalized target, so that a sibling such as `/workspaceX` does not count as
inside `/workspace`.  Used only to compare the code's actual check against the
specified one. -/
def componentwisePrefixOf (root target : String) : Bool :=
  (pathComponents (normalizeAbs root)).isPrefixOf (pathComponents (normalizeAbs target))

/-- The path resolution and security check shared verbatim by
`workspace:readFile` (lines 490-498) and `workspace:readBinaryFile`
(lines 544-552): strip a leading `/`, join onto the workspace root, normalize,
then require the resolved workspace to be a *string* prefix of the resolved
path (`resolvedPath.startsWith(resolvedWorkspace)`); `none` is the
`Access denied: path outside workspace` failure. -/
def resolveWorkspacePath (workspacePath filePath : String) : Option String :=
  let relativePath := if startsWithChar filePath '/' then dropFirst filePath else filePath
  let fullPath := workspacePath ++ "/" ++ relativePath
  let resolvedPath := normalizeAbs fullPath
  let resolvedWorkspace := normalizeAbs workspacePath
  if strStartsWithStr resolvedPath resolvedWorkspace then some resolvedPath else none

/-! ### Settings store, thread table, watcher actions -/

/-- The electron-store `settings` file: `defaultModel` and the legacy global
`workspacePath` slot.  `none` models an absent key. -/
structure Settings where
  defaultModel : Option String
  workspacePath : Option String
deriving DecidableEq

/-- The parsed thread-metadata JSON blob: its `workspacePath` field (absent or
null collapse to `none`; the empty string is representable and distinct) and
the remaining keys, which the workspace handlers preserve untouched. -/
structure Metadata where
  workspacePath : Option String
  extra : List (String × String)
deriving DecidableEq

/-- A row of the thread table as the handlers see it: `metadata` is the
optional JSON blob (`none` when the column is null/empty). -/
structure Thread where
  metadata : Option Metadata
deriving DecidableEq

/-- Process state visible to the handlers under analysis: the settings store
and the thread table. -/
structure State where
  settings : Settings
  threads : List (String × Thread)
deriving DecidableEq

/-- `getThread` from the db module: look the thread up by id. -/
def getThread (st : State) (threadId : String) : Option Thread :=
  (st.threads.find? (fun p => p.fst == threadId)).map (fun p => p.snd)

/-- `updateThread(threadId, { metadata })`: replace the metadata of the row
with that id, leaving every other row alone. -/
def updateThread (st : State) (threadId : String) (metadata : Option Metadata) : State :=
  { st with threads := st.threads.map (fun p => if p.fst == threadId then (p.fst, { p.snd with metadata := metadata }) else p) }

/-- JavaScript truthiness on an optional string: `null`/absent and the empty
string are falsy. -/
def falsyToNone : Option String → Option String
  | some s => if s == "" then none else some s
  | none => none

/-- The workspace-path extraction every read handler performs (e.g. lines
475-486): fetch the thread, parse its metadata, take `workspacePath`, and
treat a falsy value (`!workspacePath`) as no binding. -/
def boundWorkspace (st : State) (threadId : String) : Option String :=
  match getThread st threadId with
  | none => none
  | some t =>
    match t.metadata with
    | none => none
    | some md => falsyToNone md.workspacePath

/-- One call out of the handlers into persistent storage or the watcher
service, in program order.  The watcher service itself is outside models.ts,
so its calls are recorded, not interpreted. -/
inductive Action where
  | persistGlobal (p : Option String)
  | persistBinding (threadId : String) (p : Option String)
  | watchStart (threadId : String) (p : String)
  | watchStop (threadId : String)
deriving DecidableEq

/-! ### The disk model for single-file reads -/

/-- What `fs.stat`/`fs.readFile` can find at a path: a regular file with
text content, byte size and mtime ISO string, or a directory. -/
inductive DiskEntry where
  | file (content : String) (size : Nat) (modifiedAt : String)
  | dir
deriving DecidableEq

/-- The disk as a table from normalized absolute paths to entries; a miss is
an ENOENT.  Lexical lookup is faithful because the model has no symlinks. -/
abbrev Disk := List (String × DiskEntry)

def statDisk (disk : Disk) (p : String) : Option DiskEntry :=
  (disk.find? (fun e => e.fst == normalizeAbs p)).map (fun e => e.snd)

/-- Result of the two single-file read handlers: the success record
`{ success: true, content, size, modified_at }` or `{ success: false, error }`. -/
inductive ReadResult where
  | success (content : String) (size : Nat) (modifiedAt : String)
  | failure (error : String)
deriving DecidableEq

/-! ### Base64, for `workspace:readBinaryFile` -/

def base64Alphabet : List Char :=
  "ABCDEFGHIJKLMNOPQRSTUVWXYZabcdefghijklmnopqrstuvwxyz0123456789+/".toList

def b64Char (n : Nat) : Char := base64Alphabet.getD n 'A'

/-- RFC 4648 base64 over a byte list, as `Buffer.toString('base64')`. -/
def base64Chunks : List Nat → List Char
  | b1 :: b2 :: b3 :: rest =>
    let n := b1 * 65536 + b2 * 256 + b3
    b64Char (n / 262144) :: b64Char (n / 4096 % 64) :: b64Char (n / 64 % 64) :: b64Char (n % 64) :: base64Chunks rest
  | [b1, b2] =>
    let n := b1 * 1024 + b2 * 4
    [b64Char (n / 4096 % 64), b64Char (n / 64 % 64), b64Char (n % 64), '=']
  | [b1] =>
    let n := b1 * 16
    [b64Char (n / 64 % 64), b64Char (n % 64), '=', '=']
  | [] => []

/-- UTF-8 encoding of one code point. -/
def utf8EncodeNat (n : Nat) : List Nat :=
  if n < 128 then [n]
  else if n < 2048 then [192 + n / 64, 128 + n % 64]
  else if n < 65536 then [224 + n / 4096, 128 + n / 64 % 64, 128 + n % 64]
  else [240 + n / 262144, 128 + n / 4096 % 64, 128 + n / 64 % 64, 128 + n % 64]

/-- The UTF-8 bytes of a string, as Node reads and writes file content. -/
def utf8Bytes (s : String) : List Nat :=
  s.toList.foldr (fun c acc => utf8EncodeNat c.toNat ++ acc) []

def base64Encode (bytes : List Nat) : String := String.mk (base64Chunks bytes)

/-! ### The single-file read handlers -/

/-- `workspace:readFile` (models.ts lines 471-522): binding check, sandbox
check, stat (directory rejected), then the UTF-8 text content with size and
mtime.  A stat miss surfaces the thrown ENOENT message through the catch. -/
def readFileHandler (st : State) (disk : Disk) (threadId filePath : String) : ReadResult :=
  match boundWorkspace st threadId with
  | none => ReadResult.failure "No workspace folder linked"
  | some workspacePath =>
    match resolveWorkspacePath workspacePath filePath with
    | none => ReadResult.failure "Access denied: path outside workspace"
    | some resolvedPath =>
      match statDisk disk resolvedPath with
      | none => ReadResult.failure ("ENOENT: no such file or directory, stat " ++ resolvedPath)
      | some DiskEntry.dir => ReadResult.failure "Cannot read directory as file"
      | some (DiskEntry.file content size modifiedAt) => ReadResult.success content size modifiedAt

/-- `workspace:readBinaryFile` (models.ts lines 525-577): identical checks;
the content is returned base64-encoded. -/
def readBinaryFileHandler (st : State) (disk : Disk) (threadId filePath : String) : ReadResult :=
  match boundWorkspace st threadId with
  | none => ReadResult.failure "No workspace folder linked"
  | some workspacePath =>
    match resolveWorkspacePath workspacePath filePath with
    | none => ReadResult.failure "Access denied: path outside workspace"
    | some resolvedPath =>
      match statDisk disk resolvedPath with
      | none => ReadResult.failure ("ENOENT: no such file or directory, stat " ++ resolvedPath)
      | some DiskEntry.dir => ReadResult.failure "Cannot read directory as file"
      | some (DiskEntry.file content size modifiedAt) => ReadResult.success (base64Encode (utf8Bytes content)) size modifiedAt

/-! ### `workspace:loadFromDisk` and the recursive traversal -/

/-- A directory listing as the traversal meets it, entry by entry in readdir
order.  Each constructor is one entry followed by the rest of the listing:
a regular file (stat succeeds), a readable subdirectory with its own listing,
a directory whose `fs.readdir` throws the given message, or a file whose
`fs.stat` throws it.  (A sequence type of its own rather than `List` of a
node type, so that the traversal below is structurally recursive.) -/
inductive FSForest where
  | nil
  | file (name : String) (size : Nat) (mtime : String) (rest : FSForest)
  | dir (name : String) (entries : FSForest) (rest : FSForest)
  | badDir (name : String) (errMsg : String) (rest : FSForest)
  | badFile (name : String) (errMsg : String) (rest : FSForest)
deriving DecidableEq

/-- The workspace root as `fs.readdir(workspacePath)` sees it: either a
readable directory with its listing, or anything on which readdir throws
(a missing or unreadable directory, or a plain file — ENOTDIR). -/
inductive FSRoot where
  | dir (entries : FSForest)
  | unreadable (errMsg : String)
deriving DecidableEq

/-- The skip test of models.ts line 426: hidden names and `node_modules`. -/
def filteredName (name : String) : Bool :=
  startsWithChar name '.' || name == "node_modules"

/-- `relativePath ? relativePath + "/" + entry.name : entry.name` (line 431). -/
def joinRel (relativePath name : String) : String :=
  if relativePath == "" then name else relativePath ++ "/" ++ name

/-- One element of the `files` array (lines 413-418): directories carry no
size/mtime. -/
structure FileInfo where
  path : String
  is_dir : Bool
  size : Option Nat
  modified_at : Option String
deriving DecidableEq

/-- The loop body of `readDir` (models.ts lines 421-449) over a directory
listing: skip filtered names; emit a directory entry and recurse before moving
to later siblings; emit files with their stat data.  Any exception thrown by a
nested `readdir`/`stat` propagates — the source has no catch inside the
recursion, only the single try/catch around the top-level call. -/
def readList : FSForest → String → Except String (List FileInfo)
  | FSForest.nil, _ => Except.ok []
  | FSForest.file name size mtime rest, relativePath =>
    if filteredName name then readList rest relativePath
    else
      match readList rest relativePath with
      | Except.error e => Except.error e
      | Except.ok tail =>
        Except.ok ({ path := "/" ++ joinRel relativePath name, is_dir := false, size := some size, modified_at := some mtime } :: tail)
  | FSForest.dir name entries rest, relativePath =>
    if filteredName name then readList rest relativePath
    else
      match readList entries (joinRel relativePath name) with
      | Except.error e => Except.error e
      | Except.ok children =>
        match readList rest relativePath with
        | Except.error e => Except.error e
        | Except.ok tail =>
          Except.ok ({ path := "/" ++ joinRel relativePath name, is_dir := true, size := none, modified_at := none } :: (children ++ tail))
  | FSForest.badDir name errMsg rest, relativePath =>
    if filteredName name then readList rest relativePath else Except.error errMsg
  | FSForest.badFile name errMsg rest, relativePath =>
    if filteredName name then readList rest relativePath else Except.error errMsg

/-- The top-level `readDir(workspacePath)` call (line 451): list the root.
The root's own name is never filtered; a root that cannot be listed throws. -/
def readRootDir : FSRoot → Except String (List FileInfo)
  | FSRoot.dir entries => readList entries ""
  | FSRoot.unreadable errMsg => Except.error errMsg

/-- Result shape of `workspace:loadFromDisk`: success carries the listing and
the workspace path (and the handler starts the watcher); failure carries the
caught message and an empty `files` array. -/
structure LoadResult where
  success : Bool
  error : Option String
  files : List FileInfo
  workspacePath : Option String
  trace : List Action
deriving DecidableEq

/-- `workspace:loadFromDisk` (models.ts lines 400-468): binding check, then
the recursive traversal of the tree rooted at the bound path; any exception
reaches the single catch and yields `{ success: false, error, files: [] }`. -/
def loadFromDiskHandler (st : State) (root : FSRoot) (threadId : String) : LoadResult :=
  match boundWorkspace st threadId with
  | none => { success := false, error := some "No workspace folder linked", files := [], workspacePath := none, trace := [] }
  | some workspacePath =>
    match readRootDir root with
    | Except.ok files =>
      { success := true, error := none, files := files, workspacePath := some workspacePath, trace := [Action.watchStart threadId workspacePath] }
    | Except.error e =>
      { success := false, error := some e, files := [], workspacePath := none, trace := [] }

/-- Whether the traversal of a listing reaches a node whose read throws:
filtered names are skipped without being touched, so errors inside them never
fire. -/
def hasBadList : FSForest → Bool
  | FSForest.nil => false
  | FSForest.file _ _ _ rest => hasBadList rest
  | FSForest.dir name entries rest => (if filteredName name then false else hasBadList entries) || hasBadList rest
  | FSForest.badDir name _ rest => !filteredName name || hasBadList rest
  | FSForest.badFile name _ rest => !filteredName name || hasBadList rest

/-- Whether listing the root itself, then traversing, throws anywhere. -/
def rootHasBad : FSRoot → Bool
  | FSRoot.dir entries => hasBadList entries
  | FSRoot.unreadable _ => true

/-! ### `workspace:get` / `workspace:set` -/

/-- `workspace:get` (models.ts lines 318-331).  The guard is
`if (!threadId)` — a JS truthiness test, so a missing *or empty-string*
thread id reads the legacy global `workspacePath` setting.  A truthy id reads
the thread's metadata (`null` when the thread or its metadata is missing) and
returns `metadata.workspacePath || null`. -/
def workspaceGetHandler (st : State) (threadId : Option String) : Option String :=
  match falsyToNone threadId with
  | none => st.settings.workspacePath
  | some tid =>
    match getThread st tid with
    | none => none
    | some thread =>
      match thread.metadata with
      | none => none
      | some metadata => falsyToNone metadata.workspacePath

/-- Returned state, returned value and the ordered calls a `workspace:set`
invocation makes. -/
structure SetOutcome where
  state : State
  result : Option String
  trace : List Action
deriving DecidableEq

/-- `workspace:set` (models.ts lines 334-364).  The guard is
`if (!threadId)` — a JS truthiness test, so with a missing *or empty-string*
thread id a truthy path is stored in (a falsy one deleted from) the global
setting and `newPath` is returned.  With a truthy thread id: a missing thread
returns `null` with no effect; otherwise the metadata's `workspacePath` is
persisted first and then, by JS truthiness of `newPath`, the watcher is
started on it or stopped.  The returned value is always `newPath`. -/
def workspaceSetHandler (st : State) (threadId : Option String) (newPath : Option String) : SetOutcome :=
  match falsyToNone threadId with
  | none =>
    match newPath with
    | some p =>
      if p == "" then
        ⟨{ st with settings := { st.settings with workspacePath := none } }, some p, [Action.persistGlobal none]⟩
      else
        ⟨{ st with settings := { st.settings with workspacePath := some p } }, some p, [Action.persistGlobal (some p)]⟩
    | none =>
      ⟨{ st with settings := { st.settings with workspacePath := none } }, none, [Action.persistGlobal none]⟩
  | some tid =>
    match getThread st tid with
    | none => ⟨st, none, []⟩
    | some thread =>
      let metadata := thread.metadata.getD { workspacePath := none, extra := [] }
      let metadata' := { metadata with workspacePath := newPath }
      let st' := updateThread st tid (some metadata')
      match newPath with
      | some p =>
        if p == "" then
          ⟨st', some p, [Action.persistBinding tid (some p), Action.watchStop tid]⟩
        else
          ⟨st', some p, [Action.persistBinding tid (some p), Action.watchStart tid p]⟩
      | none =>
        ⟨st', none, [Action.persistBinding tid none, Action.watchStop tid]⟩

/-- The `workspacePath` stored in a thread's metadata, when thread and
metadata exist (the raw persisted value, before any truthiness coercion). -/
def metaWorkspacePath (st : State) (threadId : String) : Option (Option String) :=
  match getThread st threadId with
  | none => none
  | some thread =>
    match thread.metadata with
    | none => none
    | some metadata => some metadata.workspacePath

/-! ### Model catalog, providers, default model -/

/-- A catalog entry (`ModelConfig` in types.ts); `provider` is one of the
`ProviderId` strings. -/
structure ModelConfig where
  id : String
  name : String
  provider : String
  model : String
  description : Option String
  available : Bool
deriving DecidableEq

/-- A provider before decoration (`Omit<Provider, 'hasApiKey'>`). -/
structure ProviderBase where
  id : String
  name : String
deriving DecidableEq

/-- A decorated provider (`Provider` in types.ts). -/
structure Provider where
  id : String
  name : String
  hasApiKey : Bool
deriving DecidableEq

/-- `PROVIDERS` (models.ts lines 16-21). -/
def PROVIDERS : List ProviderBase :=
  [⟨"anthropic", "Anthropic"⟩, ⟨"openai", "OpenAI"⟩, ⟨"google", "Google"⟩, ⟨"zai", "Z.ai"⟩]

/-- `AVAILABLE_MODELS` (models.ts lines 24-264), the static catalog. -/
def AVAILABLE_MODELS : List ModelConfig :=
  [ { id := "claude-opus-4-5-20251101", name := "Claude Opus 4.5", provider := "anthropic", model := "claude-opus-4-5-20251101", description := some "Premium model with maximum intelligence", available := true },
    { id := "claude-sonnet-4-5-20250929", name := "Claude Sonnet 4.5", provider := "anthropic", model := "claude-sonnet-4-5-20250929", description := some "Best balance of intelligence, speed, and cost for agents", available := true },
    { id := "claude-haiku-4-5-20251001", name := "Claude Haiku 4.5", provider := "anthropic", model := "claude-haiku-4-5-20251001", description := some "Fastest model with near-frontier intelligence", available := true },
    { id := "claude-opus-4-1-20250805", name := "Claude Opus 4.1", provider := "anthropic", model := "claude-opus-4-1-20250805", description := some "Previous generation premium model with extended thinking", available := true },
    { id := "claude-sonnet-4-20250514", name := "Claude Sonnet 4", provider := "anthropic", model := "claude-sonnet-4-20250514", description := some "Fast and capable previous generation model", available := true },
    { id := "gpt-5.2", name := "GPT-5.2", provider := "openai", model := "gpt-5.2", description := some "Latest flagship with enhanced coding and agentic capabilities", available := true },
    { id := "gpt-5.1", name := "GPT-5.1", provider := "openai", model := "gpt-5.1", description := some "Advanced reasoning and robust performance", available := true },
    { id := "o3", name := "o3", provider := "openai", model := "o3", description := some "Advanced reasoning for complex problem-solving", available := true },
    { id := "o3-mini", name := "o3 Mini", provider := "openai", model := "o3-mini", description := some "Cost-effective reasoning with faster response times", available := true },
    { id := "o4-mini", name := "o4 Mini", provider := "openai", model := "o4-mini", description := some "Fast, efficient reasoning model succeeding o3", available := true },
    { id := "o1", name := "o1", provider := "openai", model := "o1", description := some "Premium reasoning for research, coding, math and science", available := true },
    { id := "gpt-4.1", name := "GPT-4.1", provider := "openai", model := "gpt-4.1", description := some "Strong instruction-following with 1M context window", available := true },
    { id := "gpt-4.1-mini", name := "GPT-4.1 Mini", provider := "openai", model := "gpt-4.1-mini", description := some "Faster, smaller version balancing performance and efficiency", available := true },
    { id := "gpt-4.1-nano", name := "GPT-4.1 Nano", provider := "openai", model := "gpt-4.1-nano", description := some "Most cost-efficient for lighter tasks", available := true },
    { id := "gpt-4o", name := "GPT-4o", provider := "openai", model := "gpt-4o", description := some "Versatile model for text generation and comprehension", available := true },
    { id := "gpt-4o-mini", name := "GPT-4o Mini", provider := "openai", model := "gpt-4o-mini", description := some "Cost-efficient variant with faster response times", available := true },
    { id := "gemini-3-pro-preview", name := "Gemini 3 Pro Preview", provider := "google", model := "gemini-3-pro-preview", description := some "State-of-the-art reasoning and multimodal understanding", available := true },
    { id := "gemini-3-flash-preview", name := "Gemini 3 Flash Preview", provider := "google", model := "gemini-3-flash-preview", description := some "Fast frontier-class model with low latency and cost", available := true },
    { id := "gemini-2.5-pro", name := "Gemini 2.5 Pro", provider := "google", model := "gemini-2.5-pro", description := some "High-capability model for complex reasoning and coding", available := true },
    { id := "gemini-2.5-flash", name := "Gemini 2.5 Flash", provider := "google", model := "gemini-2.5-flash", description := some "Lightning-fast with balance of intelligence and latency", available := true },
    { id := "gemini-2.5-flash-lite", name := "Gemini 2.5 Flash Lite", provider := "google", model := "gemini-2.5-flash-lite", description := some "Fast, low-cost, high-performance model", available := true },
    { id := "glm-4.7", name := "GLM-4.7", provider := "zai", model := "glm-4.7", description := some "Latest flagship model with excellent agentic coding capabilities", available := true },
    { id := "glm-4.6v", name := "GLM-4.6V", provider := "zai", model := "glm-4.6v", description := some "Multimodal model with 128K context and SOTA vision understanding", available := true },
    { id := "glm-4-plus", name := "GLM-4 Plus", provider := "zai", model := "glm-4-plus", description := some "Enhanced reasoning and accuracy", available := true },
    { id := "glm-4-flash", name := "GLM-4 Flash", provider := "zai", model := "glm-4-flash", description := some "Fast and cost-efficient model", available := true },
    { id := "glm-4.5", name := "GLM-4.5", provider := "zai", model := "glm-4.5", description := some "Advanced chain-of-thought reasoning", available := true },
    { id := "glm-4.5-air", name := "GLM-4.5 Air", provider := "zai", model := "glm-4.5-air", description := some "Lightweight version with faster inference", available := true },
    { id := "glm-4-32b-0414-128k", name := "GLM-4-32B-128K", provider := "zai", model := "glm-4-32b-0414-128k", description := some "32B parameter model with 128K context window", available := true },
    { id := "glm-4.5v", name := "GLM-4.5V", provider := "zai", model := "glm-4.5v", description := some "Vision model supporting image understanding", available := true } ]

/-- `models:list` (models.ts lines 268-274): the catalog with each entry's
`available` overwritten by `hasApiKey(model.provider)`; the credential store's
`has` predicate is passed in, its internals being outside this file. -/
def listModelsHandler (hasKey : String → Bool) : List ModelConfig :=
  AVAILABLE_MODELS.map (fun m => { m with available := hasKey m.provider })

/-- `models:listProviders` (models.ts lines 305-310). -/
def listProvidersHandler (hasKey : String → Bool) : List Provider :=
  PROVIDERS.map (fun p => { id := p.id, name := p.name, hasApiKey := hasKey p.id })

/-- `getDefaultModel` (models.ts lines 583-585) and the `models:getDefault`
handler (lines 277-279): the `defaultModel` setting with the fixed fallback. -/
def getDefaultModel (s : Settings) : String :=
  (s.defaultModel).getD "claude-sonnet-4-5-20250929"

/-- `models:setDefault` (models.ts lines 282-284): `store.set('defaultModel', modelId)`. -/
def setDefaultModel (s : Settings) (modelId : String) : Settings :=
  { s with defaultModel := some modelId }

/-! ### Concrete fixtures used by the theorems and witnesses -/

/-- A thread bound to the workspace root `/workspace`. -/
def wsThread : Thread := { metadata := some { workspacePath := some "/workspace", extra := [] } }

/-- A state holding the single bound thread `t1` and empty settings. -/
def exState : State :=
  { settings := { defaultModel := none, workspacePath := none }, threads := [("t1", wsThread)] }

/-- A state with no threads at all. -/
def emptyState : State :=
  { settings := { defaultModel := none, workspacePath := none }, threads := [] }

/-- A state with no threads but a populated global fallback slot. -/
def gState : State :=
  { settings := { defaultModel := none, workspacePath := some "/global" }, threads := [] }

/-- A disk holding a file inside the workspace and one in the sibling
directory `/workspaceX`, whose name merely extends the root as a string. -/
def exDisk : Disk :=
  [ ("/workspaceX/secret", DiskEntry.file "top secret" 10 "2026-01-02T00:00:00.000Z"),
    ("/workspace/src/a.txt", DiskEntry.file "hello" 5 "2026-01-01T00:00:00.000Z"),
    ("/workspace/docs", DiskEntry.dir) ]

/-- A workspace tree whose root lists fine but whose subdirectory `bad`
cannot be read. -/
def treeC2 : FSRoot :=
  FSRoot.dir (FSForest.dir "ok" (FSForest.file "a.txt" 3 "2026-01-01T00:00:00.000Z" FSForest.nil)
    (FSForest.badDir "bad" "EACCES: permission denied, scandir" FSForest.nil))

/-- The spec's example tree: a dot-named file `.DS_Store`, `.git`,
`node_modules` (here even holding an unreadable entry) and `src`, which holds
a dot-named unreadable file `.tmp` and `a.txt`. -/
def treeC3 : FSRoot :=
  FSRoot.dir (FSForest.file ".DS_Store" 6 "m" (FSForest.dir ".git" (FSForest.file "config" 1 "m" FSForest.nil)
    (FSForest.dir "node_modules" (FSForest.badDir "dep" "boom" FSForest.nil)
      (FSForest.dir "src" (FSForest.badFile ".tmp" "EACCES: permission denied, stat" (FSForest.file "a.txt" 3 "2026-01-01T00:00:00.000Z" FSForest.nil)) FSForest.nil))))

/-! ### Helper lemmas -/

/-- List form of the update/lookup interaction behind `getThread ∘ updateThread`. -/
theorem find?_map_update (l : List (String × Thread)) (tid : String) (thread : Thread) (md : Option Metadata) (h : (l.find? (fun p => p.fst == tid)).map (fun p => p.snd) = some thread) :
    ((l.map (fun p => if p.fst == tid then (p.fst, { p.snd with metadata := md }) else p)).find? (fun p => p.fst == tid)).map (fun p => p.snd) = some { thread with metadata := md } := by
  induction l with
  | nil => simp at h
  | cons hd tl ih =>
    cases hb : hd.fst == tid with
    | true =>
      rw [List.find?_cons_of_pos _ (by simpa using hb)] at h
      simp only [Option.map] at h
      injection h with h2
      subst h2
      rw [List.map_cons]
      have hif : (if (hd.fst == tid) = true then (hd.fst, { hd.snd with metadata := md }) else hd) = (hd.fst, { hd.snd with metadata := md }) := by
        simp [hb]
      rw [hif, List.find?_cons_of_pos _ (by simpa using hb)]
      simp only [Option.map]
    | false =>
      rw [List.find?_cons_of_neg _ (by simp [hb])] at h
      have hres := ih h
      rw [List.map_cons]
      have hif : (if (hd.fst == tid) = true then (hd.fst, { hd.snd with metadata := md }) else hd) = hd := by
        simp [hb]
      rw [hif, List.find?_cons_of_neg _ (by simp [hb])]
      exact hres

/-- Updating a thread's metadata is visible through `getThread` and leaves the
row otherwise untouched. -/
theorem getThread_updateThread (st : State) (tid : String) (thread : Thread) (md : Option Metadata) (h : getThread st tid = some thread) :
    getThread (updateThread st tid md) tid = some { thread with metadata := md } := by
  unfold getThread at *
  unfold updateThread
  exact find?_map_update st.threads tid thread md h

/-- Whether a traversal result is a success. -/
def isOkE : Except String (List FileInfo) → Bool
  | Except.ok _ => true
  | Except.error _ => false

/-- The traversal of a listing succeeds exactly when no reachable (unfiltered)
entry throws. -/
theorem isOkE_readList (f : FSForest) : ∀ rel, isOkE (readList f rel) = !hasBadList f := by
  induction f with
  | nil => intro rel; rfl
  | file name size mtime rest ih =>
    intro rel
    have e := ih rel
    by_cases hf : filteredName name
    · simpa [readList, hasBadList, hf] using e
    · cases hcall : readList rest rel <;>
        rw [hcall] at e <;>
        simp [readList, hasBadList, hf, hcall, isOkE, ← e]
  | dir name entries rest ih1 ih2 =>
    intro rel
    have e1 := ih1 (joinRel rel name)
    have e2 := ih2 rel
    by_cases hf : filteredName name
    · simpa [readList, hasBadList, hf] using e2
    · cases h1 : readList entries (joinRel rel name) <;>
        cases h2 : readList rest rel <;>
        rw [h1] at e1 <;> rw [h2] at e2 <;>
        simp [readList, hasBadList, hf, h1, h2, isOkE, ← e1, ← e2]
  | badDir name msg rest ih =>
    intro rel
    have e := ih rel
    by_cases hf : filteredName name
    · simpa [readList, hasBadList, hf] using e
    · simp [readList, hasBadList, hf, isOkE]
  | badFile name msg rest ih =>
    intro rel
    have e := ih rel
    by_cases hf : filteredName name
    · simpa [readList, hasBadList, hf] using e
    · simp [readList, hasBadList, hf, isOkE]

/-! ### Claim theorems -/

/-- C1: refuted by the code — the sandbox check of `workspace:readFile` and
`workspace:readBinaryFile` is a *string*-prefix test, not the component-wise
test the claim states.  With root `/workspace`, the virtual path
`/../workspaceX/secret` normalizes to `/workspaceX/secret`, which is not
component-wise under the root, yet both handlers read it successfully; a path
normalizing outside the root with a non-matching string prefix
(`/../../etc/passwd`) is rejected as the claim says. -/
theorem readFile_sandbox_substring_escape :
    readFileHandler exState exDisk "t1" "/../workspaceX/secret" = ReadResult.success "top secret" 10 "2026-01-02T00:00:00.000Z"
    ∧ readBinaryFileHandler exState exDisk "t1" "/../workspaceX/secret" = ReadResult.success "dG9wIHNlY3JldA==" 10 "2026-01-02T00:00:00.000Z"
    ∧ resolveWorkspacePath "/workspace" "/../workspaceX/secret" = some "/workspaceX/secret"
    ∧ componentwisePrefixOf "/workspace" "/workspaceX/secret" = false
    ∧ resolveWorkspacePath "/workspace" "/../../etc/passwd" = none := by
  refine ⟨rfl, rfl, rfl, by decide, rfl⟩

/-- C4: with no workspace binding in the session's metadata, each of the three
read operations fails with the `No workspace folder linked` error, for every
disk and every tree — the filesystem is never consulted. -/
theorem no_binding_uniform_failure (st : State) (disk : Disk) (root : FSRoot) (tid fp : String) (h : boundWorkspace st tid = none) :
    readFileHandler st disk tid fp = ReadResult.failure "No workspace folder linked"
    ∧ readBinaryFileHandler st disk tid fp = ReadResult.failure "No workspace folder linked"
    ∧ loadFromDiskHandler st root tid = { success := false, error := some "No workspace folder linked", files := [], workspacePath := none, trace := [] } := by
  refine ⟨?_, ?_, ?_⟩ <;> simp [readFileHandler, readBinaryFileHandler, loadFromDiskHandler, h]

theorem no_binding_uniform_failure_witness :
    boundWorkspace emptyState "t2" = none
    ∧ readFileHandler emptyState exDisk "t2" "/src/a.txt" = ReadResult.failure "No workspace folder linked" := by
  exact ⟨rfl, (no_binding_uniform_failure emptyState exDisk (FSRoot.dir FSForest.nil) "t2" "/src/a.txt" rfl).1⟩

/-- C7: the default model falls back to `claude-sonnet-4-5-20250929` when the
setting was never written, and a set followed by a get returns the id that was
set. -/
theorem default_model_fallback_roundtrip :
    (∀ s : Settings, s.defaultModel = none → getDefaultModel s = "claude-sonnet-4-5-20250929")
    ∧ (∀ (s : Settings) (modelId : String), getDefaultModel (setDefaultModel s modelId) = modelId) := by
  constructor
  · intro s h; simp [getDefaultModel, h]
  · intro s modelId; simp [getDefaultModel, setDefaultModel]

theorem default_model_fallback_roundtrip_witness :
    getDefaultModel { defaultModel := none, workspacePath := none } = "claude-sonnet-4-5-20250929"
    ∧ getDefaultModel (setDefaultModel { defaultModel := none, workspacePath := none } "o3") = "o3" := by
  exact ⟨default_model_fallback_roundtrip.1 _ rfl, default_model_fallback_roundtrip.2 _ "o3"⟩

/-- C10 counterexample: the empty string is a session id that does not exist
in the (empty) thread table, yet `workspace:set` with it does not return
`null` and is not a no-op: `if (!threadId)` is falsy for `""`, so the call is
routed to the global branch, writing the global `workspacePath` slot and
returning the path. -/
theorem workspace_set_empty_id_not_noop :
    getThread emptyState "" = none
    ∧ workspaceSetHandler emptyState (some "") (some "/repo") =
        { state := { settings := { defaultModel := none, workspacePath := some "/repo" }, threads := [] },
          result := some "/repo", trace := [Action.persistGlobal (some "/repo")] } := by
  exact ⟨rfl, rfl⟩

/-- C10 amended: `workspace:set` on a *non-empty* session id that is not in
the thread table returns `null` and does nothing: the state (settings and
threads alike) is returned unchanged and no persistence or watcher call is
made.  (The empty-string id is falsy and is instead routed to the global
branch.) -/
theorem workspace_set_missing_thread_noop (st : State) (tid : String) (p : Option String) (ht : (tid == "") = false) (h : getThread st tid = none) :
    workspaceSetHandler st (some tid) p = { state := st, result := none, trace := [] } := by
  simp [workspaceSetHandler, falsyToNone, ht, h]

theorem workspace_set_missing_thread_noop_witness :
    workspaceSetHandler emptyState (some "ghost") (some "/repo") = { state := emptyState, result := none, trace := [] } := by
  exact workspace_set_missing_thread_noop emptyState "ghost" (some "/repo") rfl rfl

/-- C2 counterexample: with session `t1` bound, a tree whose root lists fine
but whose subdirectory `bad` cannot be read makes `workspace:loadFromDisk`
return overall failure with an empty listing — the claim predicted that only
the `bad` subtree would be skipped and the call would still succeed with the
rest of the files. -/
theorem loadFromDisk_subtree_failure_aborts :
    loadFromDiskHandler exState treeC2 "t1" =
      { success := false, error := some "EACCES: permission denied, scandir", files := [], workspacePath := none, trace := [] } := by
  rfl

/-- C2 amended: for a bound session, `workspace:loadFromDisk` succeeds exactly
when no read fails anywhere in the traversal (top level or below, after
filtering); any failure is fatal to the whole call, which then carries an
error cause and an empty file listing. -/
theorem loadFromDisk_any_failure_fatal (st : State) (root : FSRoot) (tid wp : String) (h : boundWorkspace st tid = some wp) :
    ((loadFromDiskHandler st root tid).success = true ↔ rootHasBad root = false)
    ∧ ((loadFromDiskHandler st root tid).success = false →
        (loadFromDiskHandler st root tid).files = [] ∧ ∃ e, (loadFromDiskHandler st root tid).error = some e) := by
  have hok : isOkE (readRootDir root) = !rootHasBad root := by
    cases root with
    | dir entries => exact isOkE_readList entries ""
    | unreadable msg => rfl
  unfold loadFromDiskHandler
  rw [h]
  cases hr : readRootDir root with
  | ok files =>
    rw [hr] at hok
    simp only [isOkE] at hok
    have hrb : rootHasBad root = false := by simpa using hok.symm
    simp [hrb]
  | error e =>
    rw [hr] at hok
    simp only [isOkE] at hok
    have hrb : rootHasBad root = true := by simpa using hok.symm
    simp [hrb]

theorem loadFromDisk_any_failure_fatal_witness :
    (loadFromDiskHandler exState treeC2 "t1").files = [] ∧ ∃ e, (loadFromDiskHandler exState treeC2 "t1").error = some e :=
  (loadFromDisk_any_failure_fatal exState treeC2 "t1" "/workspace" rfl).2 rfl

/-- C3: the traversal excludes every entry — file or directory, readable or
not — whose name starts with `.` or is `node_modules`, before recursing: an
excluded entry contributes nothing and its contents are never touched (the
result does not depend on them).  A kept directory's own entry is emitted
first, then all entries of its subtree, then its later siblings (depth-first),
and on the spec's example tree (which also holds filtered files) the listing
is exactly `src` followed by `src/a.txt`. -/
theorem loadTraversal_excludes_and_dfs :
    (∀ (name : String) (entries rest : FSForest) (rel : String), filteredName name = true →
        readList (FSForest.dir name entries rest) rel = readList rest rel)
    ∧ (∀ (name errMsg : String) (rest : FSForest) (rel : String), filteredName name = true →
        readList (FSForest.badDir name errMsg rest) rel = readList rest rel)
    ∧ (∀ (name : String) (size : Nat) (mtime : String) (rest : FSForest) (rel : String), filteredName name = true →
        readList (FSForest.file name size mtime rest) rel = readList rest rel)
    ∧ (∀ (name errMsg : String) (rest : FSForest) (rel : String), filteredName name = true →
        readList (FSForest.badFile name errMsg rest) rel = readList rest rel)
    ∧ (∀ (name : String) (entries rest : FSForest) (rel : String) (children tail : List FileInfo), filteredName name = false →
        readList entries (joinRel rel name) = Except.ok children →
        readList rest rel = Except.ok tail →
        readList (FSForest.dir name entries rest) rel =
          Except.ok ({ path := "/" ++ joinRel rel name, is_dir := true, size := none, modified_at := none } :: (children ++ tail)))
    ∧ loadFromDiskHandler exState treeC3 "t1" =
        { success := true, error := none,
          files := [ { path := "/src", is_dir := true, size := none, modified_at := none },
                     { path := "/src/a.txt", is_dir := false, size := some 3, modified_at := some "2026-01-01T00:00:00.000Z" } ],
          workspacePath := some "/workspace", trace := [Action.watchStart "t1" "/workspace"] } := by
  refine ⟨?_, ?_, ?_, ?_, ?_, ?_⟩
  · intro name entries rest rel hf
    simp [readList, hf]
  · intro name errMsg rest rel hf
    simp [readList, hf]
  · intro name size mtime rest rel hf
    simp [readList, hf]
  · intro name errMsg rest rel hf
    simp [readList, hf]
  · intro name entries rest rel children tail hf h1 h2
    simp [readList, hf, h1, h2]
  · rfl

theorem loadTraversal_excludes_and_dfs_witness :
    readList (FSForest.dir ".git" (FSForest.badDir "x" "boom" FSForest.nil) FSForest.nil) "" = readList FSForest.nil ""
    ∧ readList (FSForest.file ".env" 9 "m" FSForest.nil) "" = readList FSForest.nil ""
    ∧ readList (FSForest.badFile "node_modules" "boom" FSForest.nil) "" = readList FSForest.nil ""
    ∧ readList (FSForest.dir "src" (FSForest.file "a.txt" 3 "m" FSForest.nil) FSForest.nil) "" =
        Except.ok ({ path := "/src", is_dir := true, size := none, modified_at := none } ::
          ([{ path := "/src/a.txt", is_dir := false, size := some 3, modified_at := some "m" }] ++ [])) :=
  ⟨loadTraversal_excludes_and_dfs.1 ".git" (FSForest.badDir "x" "boom" FSForest.nil) FSForest.nil "" rfl,
   loadTraversal_excludes_and_dfs.2.2.1 ".env" 9 "m" FSForest.nil "" rfl,
   loadTraversal_excludes_and_dfs.2.2.2.1 "node_modules" "boom" FSForest.nil "" rfl,
   loadTraversal_excludes_and_dfs.2.2.2.2.1 "src" (FSForest.file "a.txt" 3 "m" FSForest.nil) FSForest.nil "" _ _ rfl rfl rfl⟩

/-- C5: for a bound session, `workspace:readFile` returns the access-denied
failure whenever the sandbox resolution rejects the path — uniformly in the
disk, which is therefore never consulted on that branch; when resolution
succeeds it rejects directories with the is-a-directory failure; and on a
regular file it returns the content together with its size and modification
time. -/
theorem readFile_checks_and_result (st : State) (disk : Disk) (tid fp wp : String) (h : boundWorkspace st tid = some wp) :
    (resolveWorkspacePath wp fp = none →
      readFileHandler st disk tid fp = ReadResult.failure "Access denied: path outside workspace")
    ∧ (∀ rp, resolveWorkspacePath wp fp = some rp → statDisk disk rp = some DiskEntry.dir →
      readFileHandler st disk tid fp = ReadResult.failure "Cannot read directory as file")
    ∧ (∀ rp content size mtime, resolveWorkspacePath wp fp = some rp → statDisk disk rp = some (DiskEntry.file content size mtime) →
      readFileHandler st disk tid fp = ReadResult.success content size mtime) := by
  refine ⟨?_, ?_, ?_⟩ <;> intros <;> simp [readFileHandler, h, *]

theorem readFile_checks_and_result_witness :
    readFileHandler exState exDisk "t1" "/../../etc/passwd" = ReadResult.failure "Access denied: path outside workspace"
    ∧ readFileHandler exState exDisk "t1" "/docs" = ReadResult.failure "Cannot read directory as file"
    ∧ readFileHandler exState exDisk "t1" "/src/a.txt" = ReadResult.success "hello" 5 "2026-01-01T00:00:00.000Z" :=
  ⟨(readFile_checks_and_result exState exDisk "t1" "/../../etc/passwd" "/workspace" rfl).1 rfl,
   (readFile_checks_and_result exState exDisk "t1" "/docs" "/workspace" rfl).2.1 "/workspace/docs" rfl rfl,
   (readFile_checks_and_result exState exDisk "t1" "/src/a.txt" "/workspace" rfl).2.2 "/workspace/src/a.txt" "hello" 5 "2026-01-01T00:00:00.000Z" rfl rfl⟩

/-- C6: `models:list` returns exactly the static catalog with each entry's
`available` flag replaced by the credential-store `has` test of its provider,
and `models:listProviders` returns each provider with `hasApiKey` given by the
same test; entries are otherwise unchanged and the catalog constant itself is
untouched (the handlers only map over it). -/
theorem models_list_decorated (hasKey : String → Bool) :
    (∀ m0 ∈ AVAILABLE_MODELS, { m0 with available := hasKey m0.provider } ∈ listModelsHandler hasKey)
    ∧ (∀ m ∈ listModelsHandler hasKey, ∃ m0 ∈ AVAILABLE_MODELS, m = { m0 with available := hasKey m0.provider })
    ∧ (listModelsHandler hasKey).length = AVAILABLE_MODELS.length
    ∧ (∀ p0 ∈ PROVIDERS, ({ id := p0.id, name := p0.name, hasApiKey := hasKey p0.id } : Provider) ∈ listProvidersHandler hasKey)
    ∧ (∀ p ∈ listProvidersHandler hasKey, ∃ p0 ∈ PROVIDERS, p = { id := p0.id, name := p0.name, hasApiKey := hasKey p0.id }) := by
  refine ⟨?_, ?_, ?_, ?_, ?_⟩
  · intro m0 hm
    exact List.mem_map_of_mem _ hm
  · intro m hm
    obtain ⟨m0, hm0, rfl⟩ := List.mem_map.mp hm
    exact ⟨m0, hm0, rfl⟩
  · simp [listModelsHandler]
  · intro p0 hp
    exact List.mem_map_of_mem _ hp
  · intro p hp
    obtain ⟨p0, hp0, rfl⟩ := List.mem_map.mp hp
    exact ⟨p0, hp0, rfl⟩

theorem models_list_decorated_witness :
    ({ id := "claude-opus-4-5-20251101", name := "Claude Opus 4.5", provider := "anthropic", model := "claude-opus-4-5-20251101", description := some "Premium model with maximum intelligence", available := true } : ModelConfig) ∈ listModelsHandler (fun s => s == "anthropic")
    ∧ ({ id := "openai", name := "OpenAI", hasApiKey := false } : Provider) ∈ listProvidersHandler (fun s => s == "anthropic") :=
  ⟨(models_list_decorated (fun s => s == "anthropic")).1
      { id := "claude-opus-4-5-20251101", name := "Claude Opus 4.5", provider := "anthropic", model := "claude-opus-4-5-20251101", description := some "Premium model with maximum intelligence", available := true }
      (by simp [AVAILABLE_MODELS]),
   (models_list_decorated (fun s => s == "anthropic")).2.2.2.1 ⟨"openai", "OpenAI"⟩ (by simp [PROVIDERS])⟩

/-- C8 counterexample: the empty string is a session id under which the two
slots are conflated — `if (!threadId)` is falsy for `""`, so `workspace:get`
with session id `""` returns the global fallback slot (here `/global`, even
though no thread `""` exists), and `workspace:set` with session id `""`
overwrites the global slot while touching no per-session binding. -/
theorem workspace_empty_id_uses_global_slot :
    getThread gState "" = none
    ∧ workspaceGetHandler gState (some "") = some "/global"
    ∧ (workspaceSetHandler gState (some "") (some "/repo")).state.settings.workspacePath = some "/repo"
    ∧ (workspaceSetHandler gState (some "") (some "/repo")).state.threads = gState.threads := by
  exact ⟨rfl, rfl, rfl, rfl⟩

/-- C8 amended: for every *non-empty* session id, the legacy global workspace
slot and the per-session bindings are independent: a per-session
`workspace:set` (whatever the thread or path) leaves the global setting
unchanged, a global `workspace:set` leaves the thread table unchanged, and
`workspace:get` with a non-empty session id depends only on the thread table
— in particular a missing thread yields `null`, never the global fallback.
The empty-string id, being falsy under `if (!threadId)`, is routed to the
global slot by both handlers. -/
theorem global_slot_independence :
    (∀ (st : State) (tid : String) (p : Option String), (tid == "") = false →
      (workspaceSetHandler st (some tid) p).state.settings.workspacePath = st.settings.workspacePath)
    ∧ (∀ (st : State) (p : Option String), (workspaceSetHandler st none p).state.threads = st.threads)
    ∧ (∀ (st1 st2 : State) (tid : String), (tid == "") = false → st1.threads = st2.threads →
        workspaceGetHandler st1 (some tid) = workspaceGetHandler st2 (some tid))
    ∧ (∀ (st : State) (tid : String), (tid == "") = false → getThread st tid = none →
        workspaceGetHandler st (some tid) = none) := by
  refine ⟨?_, ?_, ?_, ?_⟩
  · intro st tid p ht
    cases hg : getThread st tid with
    | none => simp [workspaceSetHandler, falsyToNone, ht, hg]
    | some thread =>
      cases p with
      | none => simp [workspaceSetHandler, falsyToNone, ht, hg, updateThread]
      | some q => by_cases hq : q == "" <;> simp [workspaceSetHandler, falsyToNone, ht, hg, hq, updateThread]
  · intro st p
    cases p with
    | none => simp [workspaceSetHandler, falsyToNone]
    | some q => by_cases hq : q == "" <;> simp [workspaceSetHandler, falsyToNone, hq]
  · intro st1 st2 tid ht h
    simp [workspaceGetHandler, falsyToNone, ht, getThread, h]
  · intro st tid ht h
    simp [workspaceGetHandler, falsyToNone, ht, h]

theorem global_slot_independence_witness :
    (workspaceSetHandler exState (some "t1") (some "/repo")).state.settings.workspacePath = exState.settings.workspacePath
    ∧ workspaceGetHandler exState (some "ghost") = none :=
  ⟨global_slot_independence.1 exState "t1" (some "/repo") rfl,
   global_slot_independence.2.2.2 exState "ghost" rfl rfl⟩

/-- C9 counterexample: `workspace:set` for the existing session `t1` with the
non-null path `""` persists the binding but then *stops* the watcher instead
of starting it — the `if (newPath)` truthiness test, not a null test, decides
between start and stop, refuting the claim for this non-null path. -/
theorem workspace_set_empty_path_stops_watch :
    (workspaceSetHandler exState (some "t1") (some "")).trace = [Action.persistBinding "t1" (some ""), Action.watchStop "t1"]
    ∧ (workspaceSetHandler exState (some "t1") (some "")).result = some ""
    ∧ metaWorkspacePath (workspaceSetHandler exState (some "t1") (some "")).state "t1" = some (some "") := by
  exact ⟨rfl, rfl, rfl⟩

/-- C9 amended: for every existing session with a non-empty id (an empty id
would be routed to the global branch by `if (!threadId)`), `workspace:set`
with a non-null, non-empty path persists the binding into the session
metadata and then starts the watch on that path; with `null` it persists the
cleared binding and then stops the watch; with the non-null empty string it
persists the empty binding and then stops the watch.  The persistence call
always comes first and the watcher call always accompanies it. -/
theorem workspace_set_persist_then_watch (st : State) (tid : String) (thread : Thread) (ht : (tid == "") = false) (h : getThread st tid = some thread) :
    (∀ p : String, (p == "") = false →
      (workspaceSetHandler st (some tid) (some p)).trace = [Action.persistBinding tid (some p), Action.watchStart tid p]
      ∧ metaWorkspacePath (workspaceSetHandler st (some tid) (some p)).state tid = some (some p)
      ∧ (workspaceSetHandler st (some tid) (some p)).result = some p)
    ∧ ((workspaceSetHandler st (some tid) none).trace = [Action.persistBinding tid none, Action.watchStop tid]
      ∧ metaWorkspacePath (workspaceSetHandler st (some tid) none).state tid = some none
      ∧ (workspaceSetHandler st (some tid) none).result = none)
    ∧ ((workspaceSetHandler st (some tid) (some "")).trace = [Action.persistBinding tid (some ""), Action.watchStop tid]) := by
  have hupd := fun md => getThread_updateThread st tid thread md h
  refine ⟨?_, ?_, ?_⟩
  · intro p hp
    refine ⟨?_, ?_, ?_⟩ <;> simp [workspaceSetHandler, falsyToNone, ht, h, hp, metaWorkspacePath, hupd]
  · refine ⟨?_, ?_, ?_⟩ <;> simp [workspaceSetHandler, falsyToNone, ht, h, metaWorkspacePath, hupd]
  · simp [workspaceSetHandler, falsyToNone, ht, h]

theorem workspace_set_persist_then_watch_witness :
    ((workspaceSetHandler exState (some "t1") (some "/repo")).trace = [Action.persistBinding "t1" (some "/repo"), Action.watchStart "t1" "/repo"]
      ∧ metaWorkspacePath (workspaceSetHandler exState (some "t1") (some "/repo")).state "t1" = some (some "/repo")
      ∧ (workspaceSetHandler exState (some "t1") (some "/repo")).result = some "/repo")
    ∧ (workspaceSetHandler exState (some "t1") none).trace = [Action.persistBinding "t1" none, Action.watchStop "t1"] :=
  ⟨(workspace_set_persist_then_watch exState "t1" wsThread rfl rfl).1 "/repo" rfl,
   ((workspace_set_persist_then_watch exState "t1" wsThread rfl rfl).2.1).1⟩

end Openwork
